import Mathlib

/-
Verification of the darcbright flashlight firmware control logic
(src/darcbright.ino) against its natural-language specification.

The relevant C state and functions are shallowly embedded below:
machine integers become Nat (with explicit `% 2^w` where a narrowing
conversion or overflow can occur in the source), the two `static`
locals of `power_pt_func` (`low_power_condition`, `anti_flicker`)
become fields of the state record, and pin writes (digitalWrite /
analogWrite) are modelled as returned drive-level values where a claim
is about them and are otherwise omitted (they do not feed back into the
control state).  `Serial` logging is omitted throughout: it does not
affect any state.
-/

/-! ## Constants (darcbright.ino lines 47-61) -/

def VOLTAGE_NOMINAL : Nat := 3330
def VOLTAGE_LOW : Nat := 3100
def OVERTEMP_SHUTDOWN_C : Nat := 65
def OVERTEMP_THROTTLE_C : Nat := 45
def OVERTEMP_SHUTDOWN : Nat := OVERTEMP_SHUTDOWN_C * 10 + 500
def OVERTEMP_THROTTLE : Nat := OVERTEMP_THROTTLE_C * 10 + 500
def BRT_MIN_LUMEN : Nat := 4
def BRT_MED_LUMEN : Nat := 255
def BRT_LOW_LUMEN : Nat := BRT_MED_LUMEN / 4
def BRT_MAX_LUMEN : Nat := BRT_MED_LUMEN + 3 * 255

/-! ## Global control state

Fields mirror the C globals (lines 89-96) plus the two `static` locals
of `power_pt_func` (lines 471-472).  `byte` flags that the program only
ever uses as booleans (`amount_flash`, `amount_off`) are modelled as
`Bool`; `unsigned short` fields are Nat values kept below 2^16 by the
operations themselves (narrowing stores apply `% 65536`). -/

structure SysState where
  light_mode : Nat
  overtemp_max : Nat
  amount_current : Nat
  amount_begin : Nat
  amount_end : Nat
  amount_fade_duration : Nat
  amount_fade_start : Nat
  amount_flash : Bool
  amount_off : Bool
  low_power_condition : Bool
  anti_flicker : Nat
  deriving DecidableEq

/-! ## Actuator mapping (`set_brightness`, lines 346-357)

The function drives two pins: DPIN_DRV_EN (the primary channel) and
DPIN_DRV_MODE (the secondary boost channel).  A pin write is modelled
as a drive level in 0..255: `digitalWrite LOW` = 0, `digitalWrite HIGH`
= 255 (on AVR, `analogWrite(pin,255)` and `digitalWrite(pin,HIGH)`
produce the same constant-high output).  Result: (EN level, MODE level). -/

def set_brightness (b : Nat) : Nat × Nat :=
  if b ≤ 255 then
    -- digitalWrite(DPIN_DRV_MODE, LOW); analogWrite(DPIN_DRV_EN, b);
    (b, 0)
  else if b ≤ BRT_MAX_LUMEN then
    -- analogWrite(DPIN_DRV_MODE, ((long)b-BRT_MED_LUMEN)*255/((long)BRT_MAX_LUMEN-BRT_MED_LUMEN));
    -- digitalWrite(DPIN_DRV_EN, HIGH);
    (255, (b - BRT_MED_LUMEN) * 255 / (BRT_MAX_LUMEN - BRT_MED_LUMEN))
  else
    (255, 255)

/-! ## `set_amount` (lines 359-371)

Stores into the `unsigned short` brightness fields (narrowing `% 65536`)
and clears the fade.  The DPIN_PWR gating (lines 366-370) is a pure pin
output depending on `time_current`, with no feedback into state; it is
not modelled. -/

def set_amount (s : SysState) (amount : Nat) : SysState :=
  { s with
    amount_current := amount % 65536
    amount_begin := amount % 65536
    amount_end := amount % 65536
    amount_fade_duration := 0
    amount_off := false }

/-! ## `fade_to_amount` (lines 373-380) -/

def fade_to_amount (s : SysState) (amount : Nat) (fade_duration : Nat)
    (now : Nat) : SysState :=
  { s with
    amount_begin := s.amount_current
    amount_end := amount % 65536
    amount_fade_duration := fade_duration % 65536
    amount_fade_start := now
    amount_off := false }

/-! ## Fade controller tick (`fade_control_pt_func`, lines 382-423)

One pass of the loop body for a tick on which the protothread is not
suspended inside the 100 ms flash pulse (lines 391-395): it clears
`amount_flash` (line 397), computes the elapsed fade time, interpolates
or finishes the fade (lines 399-407), clamps to the thermal ceiling
(lines 415-417) and emits the drive levels (line 419).  The interpolated
value is computed in C `long` arithmetic — `Int` with truncating
`Int.div` — and narrowed to `unsigned short` on store. -/

def fade_interp (b e t d : Nat) : Nat :=
  ((Int.tdiv (((e : Int) - (b : Int)) * (t : Int)) (d : Int) + (b : Int)) % 65536).toNat

/-- Lines 399-407: the value assigned to `amount_current` by the fade
interpolation (`amount_end` once the fade time has elapsed, the
proportional interpolation before that). -/
def fade_compute (b e t d : Nat) : Nat :=
  if d ≤ t then e else fade_interp b e t d

/-- Lines 415-417: `if(amount_current>overtemp_max) amount_current = overtemp_max;`. -/
def fade_clamp (v ceiling : Nat) : Nat :=
  if ceiling < v then ceiling else v

def fade_control_tick (s : SysState) (now : Nat) : SysState :=
  { s with
    amount_flash := false
    amount_current :=
      fade_clamp
        (fade_compute s.amount_begin s.amount_end (now - s.amount_fade_start)
          s.amount_fade_duration)
        s.overtemp_max }

/-- The drive levels emitted at the end of a fade-controller tick
(line 419: `set_brightness(amount_off?0:amount_current)`). -/
def fade_control_output (s : SysState) : Nat × Nat :=
  set_brightness (if s.amount_off then 0 else s.amount_current)

/-! ## Power supervisor tick (`power_pt_func`, lines 463-570)

The body between two `PT_YIELD`s, split into the three code sections:
the shutdown check (lines 474-481), the low-voltage / recovery section
(lines 483-509) and the thermal-throttle section (lines 511-517).
The 1 Hz `Serial` statistics block (lines 519-563) touches no control
state and is omitted. -/

def shutdown_step (s : SysState) (temp_filtered : Nat) : SysState :=
  if OVERTEMP_SHUTDOWN < temp_filtered then
    -- set_amount(0); the three digitalWrite(...,LOW) calls are pin-only.
    set_amount s 0
  else s

/-- Lines 484-486: `if(!low_power_condition) overtemp_max = amount_current;`
— on the first latch the ceiling is snapshotted to the current brightness. -/
def lowvolt_snapshot (ceiling : Nat) (low : Bool) (amount : Nat) : Nat :=
  if low then ceiling else amount

/-- Lines 488-494: while the filtered voltage is critically low and the
ceiling is above the floor, `overtemp_max = overtemp_max/2 + BRT_MIN_LUMEN`
and `anti_flicker = 0`.  (The three pin writes there are pin-only.)
Returns the new `(overtemp_max, anti_flicker)`. -/
def lowvolt_halve (ceiling anti vcc_filtered : Nat) : Nat × Nat :=
  if vcc_filtered < VOLTAGE_LOW ∧ BRT_MIN_LUMEN < ceiling then
    (ceiling / 2 + BRT_MIN_LUMEN, 0)
  else (ceiling, anti)

/-- Lines 496-501 and (with `ok = true`) lines 502-509: if the
anti-flicker cooldown has expired (`anti_flicker == 255`), increment the
ceiling by one when permitted and below `BRT_MAX_LUMEN`; otherwise tick
the cooldown counter (`uint8_t` increment).  In the low-power branch the
extra permission `ok` is `vcc_filtered > VOLTAGE_NOMINAL + 50`.
Returns the new `(overtemp_max, anti_flicker)`. -/
def cooldown_recover (ceiling anti : Nat) (ok : Bool) : Nat × Nat :=
  if anti = 255 then
    if ok ∧ ceiling ≠ BRT_MAX_LUMEN then ((ceiling + 1) % 65536, anti)
    else (ceiling, anti)
  else (ceiling, (anti + 1) % 256)

/-- Lines 483-509 on the three mutated variables: returns the new
`(overtemp_max, low_power_condition, anti_flicker)`. -/
def lowvolt_core (ceiling : Nat) (low : Bool) (anti : Nat)
    (amount vcc_current vcc_filtered : Nat) : Nat × Bool × Nat :=
  if low ∨ vcc_current < VOLTAGE_LOW then
    let c1 := lowvolt_snapshot ceiling low amount
    let p := lowvolt_halve c1 anti vcc_filtered
    let q := cooldown_recover p.1 p.2 (decide (VOLTAGE_NOMINAL + 50 < vcc_filtered))
    (q.1, true, q.2)
  else
    let q := cooldown_recover ceiling anti true
    (q.1, low, q.2)

def lowvolt_step (s : SysState) (vcc_current vcc_filtered : Nat) : SysState :=
  { s with
    overtemp_max :=
      (lowvolt_core s.overtemp_max s.low_power_condition s.anti_flicker
        s.amount_current vcc_current vcc_filtered).1
    low_power_condition :=
      (lowvolt_core s.overtemp_max s.low_power_condition s.anti_flicker
        s.amount_current vcc_current vcc_filtered).2.1
    anti_flicker :=
      (lowvolt_core s.overtemp_max s.low_power_condition s.anti_flicker
        s.amount_current vcc_current vcc_filtered).2.2 }

/-- Line 512: `unsigned short new_max = ((OVERTEMP_THROTTLE+254-temp_filtered)<<2)`.
The shift is computed in `int` arithmetic (gcc: `*4` also for negative
values) and narrowed to `unsigned short`. -/
def throttle_target (temp_filtered : Nat) : Nat :=
  ((((OVERTEMP_THROTTLE : Int) + 254 - (temp_filtered : Int)) * 4) % 65536).toNat

def throttle_step (s : SysState) (temp_filtered : Nat) : SysState :=
  if OVERTEMP_THROTTLE < temp_filtered then
    if throttle_target temp_filtered < s.overtemp_max then
      { s with overtemp_max := s.overtemp_max - 1, anti_flicker := 0 }
    else s
  else s

def power_tick (s : SysState) (temp_filtered vcc_current vcc_filtered : Nat) :
    SysState :=
  throttle_step
    (lowvolt_step (shutdown_step s temp_filtered) vcc_current vcc_filtered)
    temp_filtered

/-! ## Reachability of the power supervisor

`power_pt_func` initializes `overtemp_max = BRT_MAX_LUMEN` at its
`PT_BEGIN` (line 467); the static locals start as `false` / `255`
(lines 471-472).  Between two of its ticks, the rest of the loop may
rewrite the brightness fields (fade controller, serial commands, mode
tasks); an input therefore carries the sensor readings together with
the `amount_current` value the supervisor observes on that tick. -/

structure PowerInput where
  temp_filtered : Nat
  vcc_current : Nat
  vcc_filtered : Nat
  amount : Nat

def power_step (s : SysState) (i : PowerInput) : SysState :=
  power_tick { s with amount_current := i.amount }
    i.temp_filtered i.vcc_current i.vcc_filtered

def power_init : SysState :=
  { light_mode := 0, overtemp_max := BRT_MAX_LUMEN, amount_current := 0
    amount_begin := 0, amount_end := 0, amount_fade_duration := 0
    amount_fade_start := 0, amount_flash := false, amount_off := false
    low_power_condition := false, anti_flicker := 255 }

def power_iter (l : List PowerInput) : SysState :=
  l.foldl power_step power_init

/-! ## Persisted settings (lines 317-344)

EEPROM bytes are modelled as Nat values < 256.  The checksum expression
`~(data[1]^data[2]^data[3] + sizeof(data))` groups as
`~(data[1] ^ data[2] ^ (data[3] + 4))` (C precedence: `+` binds tighter
than `^`); the XOR is computed in `int` arithmetic and the result is
narrowed to `byte`, so for x ≥ 0 the stored byte is `255 - (x % 256)`. -/

def settings_checksum (d1 d2 d3 : Nat) : Nat :=
  255 - ((d1 ^^^ d2 ^^^ (d3 + 4)) % 256)

/-- Lines 333-344 (`save_settings`): the four bytes written to EEPROM,
as `(data[0], data[1], data[2], data[3])`.  `data[2] = (byte)amount`,
`data[3] = amount >> 8` with `amount` an `unsigned short`. -/
def save_settings (light_mode amount : Nat) : Nat × Nat × Nat × Nat :=
  let d1 := light_mode % 256
  let d2 := amount % 256
  let d3 := (amount % 65536) / 256
  (settings_checksum d1 d2 d3, d1, d2, d3)

/-- Lines 317-331 (`retrieve_settings`): if the checksum test passes,
restore `light_mode` and — only when the restored mode is nonzero — the
brightness via `set_amount(data[2] + ((unsigned short)data[3] << 8))`.
On checksum mismatch nothing is modified. -/
def retrieve_settings (rec : Nat × Nat × Nat × Nat) (s : SysState) : SysState :=
  if rec.1 = settings_checksum rec.2.1 rec.2.2.1 rec.2.2.2 then
    let s := { s with light_mode := rec.2.1 }
    if s.light_mode ≠ 0 then
      set_amount s (rec.2.2.1 + rec.2.2.2 * 256)
    else s
  else s

/-- Corrupt exactly one of the four stored bytes (positions 0..3). -/
def tamper_record (rec : Nat × Nat × Nat × Nat) (i b : Nat) :
    Nat × Nat × Nat × Nat :=
  match i with
  | 0 => (b, rec.2.1, rec.2.2.1, rec.2.2.2)
  | 1 => (rec.1, b, rec.2.2.1, rec.2.2.2)
  | 2 => (rec.1, rec.2.1, b, rec.2.2.2)
  | 3 => (rec.1, rec.2.1, rec.2.2.1, b)
  | _ + 4 => rec

/-! ## Settings retrieval at startup (`setup`, lines 819-823) -/

inductive BattState where
  | discharging
  | charging
  | charged
  deriving DecidableEq

/-- Lines 819-823: `retrieve_settings` is called only when
`batt_state == BATT_DISCHARGING`. -/
def setup_settings (batt : BattState) (rec : Nat × Nat × Nat × Nat)
    (s : SysState) : SysState :=
  if batt = BattState.discharging then retrieve_settings rec s else s

/-! ## Mode-thread termination handling (`loop`, lines 898-908)

A mode protothread's tick returns a protothread status char.  Modelled
from the spec and the standard protothreads header `pt.h` (included by
the sketch but not part of this repository): `PT_WAITING = 0`,
`PT_YIELDED = 1`, `PT_EXITED = 2`, `PT_ENDED = 3`, and
`PT_SCHEDULE(f) := f < PT_EXITED`, so a terminated thread (one that ran
past `PT_END` or `PT_EXIT`) yields a status ≥ 2 — the spec's
`Terminated`; statuses 0 and 1 are `Continue`. -/

def PT_EXITED : Nat := 2
def PT_ENDED : Nat := 3

def PT_SCHEDULE (status : Nat) : Bool := status < PT_EXITED

/-- Lines 905-908: after dispatching the active mode thread, the caller
checks `if(!PT_SCHEDULE(thread_status)) { light_mode = 0;
fade_to_amount(0,500); }`.  Result: the new `light_mode` together with
the updated brightness state. -/
def loop_mode_epilogue (thread_status : Nat) (s : SysState) (now : Nat) :
    Nat × SysState :=
  if ¬ PT_SCHEDULE thread_status then
    (0, fade_to_amount s 0 500 now)
  else (s.light_mode, s)

/-! ## Knob mode arithmetic (`light_knob_pt_func`, lines 616-671)

The knob/tilt computation is `float` arithmetic in the source; it is
modelled in exact rational arithmetic (every operation used — addition,
subtraction, multiplication, division by the constants 7 and 180 — is
modelled exactly over ℚ).  `PI` is the Arduino constant. -/

def piQ : ℚ := 3.1415926535897932

def DEG_TO_RAD (x : ℚ) : ℚ := piQ * x / 180

/-- Lines 652-665: one tilt-integration step.  Takes the current knob
value, the previous roll sample (`lastKnobAngle`) and the current
roll/pitch angles; returns the new `(knob, lastKnobAngle)`. -/
def knob_step (knob lastKnobAngle angle_roll angle_pitch : ℚ) : ℚ × ℚ :=
  let change := angle_roll - lastKnobAngle
  if |angle_pitch| < DEG_TO_RAD 60 then
    let change := if piQ < change then change - 2 * piQ else change
    let change := if change < -piQ then change + 2 * piQ else change
    let knob := knob + change / (-7)
    let knob := if knob < 0 then 0 else knob
    let knob := if 1 < knob then 1 else knob
    (knob, angle_roll)
  else
    (knob, angle_roll)

/-- Lines 641-644: `bright = (uint16_t)(knob * knob * BRT_MAX_LUMEN)`
(the float→integer cast truncates, i.e. floors for non-negative values)
followed by `if (bright < BRT_MIN_LUMEN) bright = BRT_MIN_LUMEN`. -/
def knob_bright (knob : ℚ) : Nat :=
  let bright := ⌊knob * knob * (BRT_MAX_LUMEN : ℚ)⌋₊
  if bright < BRT_MIN_LUMEN then BRT_MIN_LUMEN else bright

/-! ## General helper lemmas -/

theorem xor_mod_two_pow (a b n : Nat) :
    (a ^^^ b) % 2 ^ n = a % 2 ^ n ^^^ b % 2 ^ n := by
  apply Nat.eq_of_testBit_eq
  intro i
  simp only [Nat.testBit_mod_two_pow, Nat.testBit_xor]
  by_cases h : i < n <;> simp [h]

theorem xor_mod256_inj {k a b : Nat}
    (h : (k ^^^ a) % 256 = (k ^^^ b) % 256) : a % 256 = b % 256 := by
  have h256 : (256 : Nat) = 2 ^ 8 := by norm_num
  rw [h256, xor_mod_two_pow, xor_mod_two_pow] at h
  have h2 := congrArg (fun t => (k % 2 ^ 8) ^^^ t) h
  simpa [← Nat.xor_assoc, Nat.xor_self, h256] using h2

theorem settings_checksum_lt (d1 d2 d3 : Nat) : settings_checksum d1 d2 d3 ≤ 255 := by
  unfold settings_checksum
  omega

/-! ## Claim C7 -/

/-- C7: `set_brightness` has two regimes: for `amount ≤ 255` the primary
channel (DPIN_DRV_EN) is driven with the amount directly and the
secondary boost channel (DPIN_DRV_MODE) is kept off; for
`255 < amount ≤ BRT_MAX_LUMEN` the primary channel is held fully on and
the secondary channel is driven with `(amount-255)*255/(BRT_MAX_LUMEN-255)`;
the two regimes meet at the 255 boundary without a discontinuity in the
emitted drive levels (`set_brightness 255 = set_brightness 256`). -/
theorem set_brightness_two_regimes :
    (∀ b, b ≤ 255 → set_brightness b = (b, 0)) ∧
    (∀ b, 255 < b → b ≤ BRT_MAX_LUMEN →
      set_brightness b = (255, (b - 255) * 255 / (BRT_MAX_LUMEN - 255))) ∧
    set_brightness 255 = set_brightness 256 := by
  refine ⟨fun b hb => ?_, fun b hb1 hb2 => ?_, by decide⟩
  · simp [set_brightness, hb]
  · simp [set_brightness, Nat.not_le.mpr hb1, hb2, BRT_MED_LUMEN]

/-- Witness for C7 at concrete inputs on both sides of the boundary. -/
theorem set_brightness_two_regimes_witness :
    set_brightness 100 = (100, 0) ∧ set_brightness 510 = (255, 85) := by
  constructor
  · exact set_brightness_two_regimes.1 100 (by decide)
  · have h := set_brightness_two_regimes.2.1 510 (by decide) (by decide)
    simpa using h

/-! ## Claim C9 -/

/-- C9: whenever the active mode protothread's tick returns a terminated
status (`PT_EXITED` or `PT_ENDED`, i.e. status ≥ 2, the spec's
`Terminated`), the caller in `loop` replaces the active mode with the
default mode 0 and starts a fade of brightness to zero over 500 ms. -/
theorem mode_terminated_falls_back (thread_status : Nat) (s : SysState)
    (now : Nat) (h : PT_EXITED ≤ thread_status) :
    (loop_mode_epilogue thread_status s now).1 = 0 ∧
    (loop_mode_epilogue thread_status s now).2.amount_end = 0 ∧
    (loop_mode_epilogue thread_status s now).2.amount_fade_duration = 500 ∧
    (loop_mode_epilogue thread_status s now).2.amount_begin = s.amount_current ∧
    (loop_mode_epilogue thread_status s now).2.amount_fade_start = now := by
  have hs : ¬ PT_SCHEDULE thread_status = true := by
    simp [PT_SCHEDULE, PT_EXITED] at h ⊢
    omega
  simp [loop_mode_epilogue, hs, fade_to_amount]

/-- Witness for C9: a thread returning `PT_ENDED` from the `power_init`
state at time 1000. -/
theorem mode_terminated_falls_back_witness :
    (loop_mode_epilogue PT_ENDED power_init 1000).1 = 0 ∧
    (loop_mode_epilogue PT_ENDED power_init 1000).2.amount_end = 0 ∧
    (loop_mode_epilogue PT_ENDED power_init 1000).2.amount_fade_duration = 500 ∧
    (loop_mode_epilogue PT_ENDED power_init 1000).2.amount_begin
      = power_init.amount_current ∧
    (loop_mode_epilogue PT_ENDED power_init 1000).2.amount_fade_start = 1000 :=
  mode_terminated_falls_back PT_ENDED power_init 1000 (by decide)

/-! ## Claim C10 -/

/-- C10: at startup, persisted settings are consulted only when the
battery state is `Discharging` — on USB power (`Charging`/`Charged`)
even a validly-checksummed record is ignored and the state is left at
its defaults; and even on battery, a valid record whose stored mode byte
is 0 restores only the mode and discards the saved brightness amount
(the whole state change is `light_mode := 0`). -/
theorem settings_only_on_battery :
    (∀ (batt : BattState) (rec : Nat × Nat × Nat × Nat) (s : SysState),
      batt ≠ BattState.discharging → setup_settings batt rec s = s) ∧
    (∀ (d0 d2 d3 : Nat) (s : SysState), d0 = settings_checksum 0 d2 d3 →
      setup_settings BattState.discharging (d0, 0, d2, d3) s
        = { s with light_mode := 0 }) := by
  constructor
  · intro batt rec s hb
    simp [setup_settings, hb]
  · intro d0 d2 d3 s hchk
    simp [setup_settings, retrieve_settings, hchk]

/-- Witness for C10: a charging boot ignores a valid record; a battery
boot with a valid mode-0 record only zeroes the mode. -/
theorem settings_only_on_battery_witness :
    setup_settings BattState.charging (252, 0, 7, 0)
        { power_init with light_mode := 2, amount_current := 9 }
      = { power_init with light_mode := 2, amount_current := 9 } ∧
    setup_settings BattState.discharging (252, 0, 7, 0)
        { power_init with light_mode := 2, amount_current := 9 }
      = { power_init with light_mode := 0, amount_current := 9 } := by
  constructor
  · exact settings_only_on_battery.1 BattState.charging (252, 0, 7, 0)
      { power_init with light_mode := 2, amount_current := 9 } (by decide)
  · exact settings_only_on_battery.2 252 7 0
      { power_init with light_mode := 2, amount_current := 9 } (by decide)


/-! ## Claim C6 -/

/-- The byte stored at position `i` of a settings record. -/
def record_byte (rec : Nat × Nat × Nat × Nat) (i : Nat) : Nat :=
  match i with
  | 0 => rec.1
  | 1 => rec.2.1
  | 2 => rec.2.2.1
  | 3 => rec.2.2.2
  | _ + 4 => 0

theorem settings_checksum_inj_d1 {x y d2 d3 : Nat} (hx : x < 256) (hy : y < 256)
    (h : settings_checksum x d2 d3 = settings_checksum y d2 d3) : x = y := by
  unfold settings_checksum at h
  have hm1 : (x ^^^ d2 ^^^ (d3 + 4)) % 256 < 256 := Nat.mod_lt _ (by norm_num)
  have hm2 : (y ^^^ d2 ^^^ (d3 + 4)) % 256 < 256 := Nat.mod_lt _ (by norm_num)
  have h' : (x ^^^ d2 ^^^ (d3 + 4)) % 256 = (y ^^^ d2 ^^^ (d3 + 4)) % 256 := by
    omega
  rw [Nat.xor_assoc x d2 (d3 + 4), Nat.xor_assoc y d2 (d3 + 4),
      Nat.xor_comm x (d2 ^^^ (d3 + 4)), Nat.xor_comm y (d2 ^^^ (d3 + 4))] at h'
  have := xor_mod256_inj h'
  omega

theorem settings_checksum_inj_d2 {d1 x y d3 : Nat} (hx : x < 256) (hy : y < 256)
    (h : settings_checksum d1 x d3 = settings_checksum d1 y d3) : x = y := by
  unfold settings_checksum at h
  have hm1 : (d1 ^^^ x ^^^ (d3 + 4)) % 256 < 256 := Nat.mod_lt _ (by norm_num)
  have hm2 : (d1 ^^^ y ^^^ (d3 + 4)) % 256 < 256 := Nat.mod_lt _ (by norm_num)
  have h' : (d1 ^^^ x ^^^ (d3 + 4)) % 256 = (d1 ^^^ y ^^^ (d3 + 4)) % 256 := by
    omega
  rw [Nat.xor_comm d1 x, Nat.xor_comm d1 y, Nat.xor_assoc x d1 (d3 + 4),
      Nat.xor_assoc y d1 (d3 + 4), Nat.xor_comm x (d1 ^^^ (d3 + 4)),
      Nat.xor_comm y (d1 ^^^ (d3 + 4))] at h'
  have := xor_mod256_inj h'
  omega

theorem settings_checksum_inj_d3 {d1 d2 x y : Nat} (hx : x < 256) (hy : y < 256)
    (h : settings_checksum d1 d2 x = settings_checksum d1 d2 y) : x = y := by
  unfold settings_checksum at h
  have hm1 : (d1 ^^^ d2 ^^^ (x + 4)) % 256 < 256 := Nat.mod_lt _ (by norm_num)
  have hm2 : (d1 ^^^ d2 ^^^ (y + 4)) % 256 < 256 := Nat.mod_lt _ (by norm_num)
  have h' : (d1 ^^^ d2 ^^^ (x + 4)) % 256 = (d1 ^^^ d2 ^^^ (y + 4)) % 256 := by
    omega
  have := xor_mod256_inj h'
  omega

/-- C6: persisted-settings round trip — saving `{mode_id=2, amount=300}`
and retrieving the same four bytes restores exactly mode 2 and amount
300; and for every record written by `save_settings`, replacing any
single one of the four bytes by a different byte value makes the
checksum test fail, so `retrieve_settings` treats the record as absent
and leaves the whole state unchanged. -/
theorem persisted_settings_roundtrip_and_tamper :
    (∀ s : SysState,
      (retrieve_settings (save_settings 2 300) s).light_mode = 2 ∧
      (retrieve_settings (save_settings 2 300) s).amount_current = 300) ∧
    (∀ light_mode amount i b : Nat, light_mode < 256 → amount < 65536 →
      i < 4 → b < 256 → b ≠ record_byte (save_settings light_mode amount) i →
      (tamper_record (save_settings light_mode amount) i b).1 ≠
        settings_checksum
          (tamper_record (save_settings light_mode amount) i b).2.1
          (tamper_record (save_settings light_mode amount) i b).2.2.1
          (tamper_record (save_settings light_mode amount) i b).2.2.2 ∧
      ∀ s : SysState,
        retrieve_settings (tamper_record (save_settings light_mode amount) i b) s
          = s) := by
  constructor
  · intro s
    have hsave : save_settings 2 300 = (212, 2, 44, 1) := by decide
    rw [hsave]
    have hchk : (212 : Nat) = settings_checksum 2 44 1 := by decide
    simp [retrieve_settings, ← hchk, set_amount]
  · intro m a i b hm ha hi hb hne
    have hd1 : m % 256 < 256 := Nat.mod_lt _ (by norm_num)
    have hd2 : a % 256 < 256 := Nat.mod_lt _ (by norm_num)
    have hd3 : a % 65536 / 256 < 256 := by omega
    have key :
        (tamper_record (save_settings m a) i b).1 ≠
          settings_checksum
            (tamper_record (save_settings m a) i b).2.1
            (tamper_record (save_settings m a) i b).2.2.1
            (tamper_record (save_settings m a) i b).2.2.2 := by
      interval_cases i
      · simp only [save_settings, tamper_record, record_byte] at hne ⊢
        exact hne
      · simp only [save_settings, tamper_record, record_byte] at hne ⊢
        intro hcontra
        exact hne (settings_checksum_inj_d1 hd1 hb hcontra).symm
      · simp only [save_settings, tamper_record, record_byte] at hne ⊢
        intro hcontra
        exact hne (settings_checksum_inj_d2 hd2 hb hcontra).symm
      · simp only [save_settings, tamper_record, record_byte] at hne ⊢
        intro hcontra
        exact hne (settings_checksum_inj_d3 hd3 hb hcontra).symm
    refine ⟨key, fun s => ?_⟩
    simp [retrieve_settings, key]

/-- Witness for C6: the round trip at `{mode_id=2, amount=300}`, and
tamper-detection when the mode byte of that record is flipped to 7. -/
theorem persisted_settings_roundtrip_and_tamper_witness :
    (retrieve_settings (save_settings 2 300) power_init).light_mode = 2 ∧
    (retrieve_settings (save_settings 2 300) power_init).amount_current = 300 ∧
    retrieve_settings (tamper_record (save_settings 2 300) 1 7) power_init
      = power_init := by
  refine ⟨(persisted_settings_roundtrip_and_tamper.1 power_init).1,
          (persisted_settings_roundtrip_and_tamper.1 power_init).2,
          (persisted_settings_roundtrip_and_tamper.2 2 300 1 7 (by decide)
            (by decide) (by decide) (by decide) (by decide)).2 power_init⟩

/-! ## Claim C1 -/

theorem lowvolt_step_amount_fields (s : SysState) (c f : Nat) :
    (lowvolt_step s c f).amount_current = s.amount_current ∧
    (lowvolt_step s c f).amount_off = s.amount_off ∧
    (lowvolt_step s c f).amount_end = s.amount_end ∧
    (lowvolt_step s c f).amount_begin = s.amount_begin ∧
    (lowvolt_step s c f).amount_fade_duration = s.amount_fade_duration ∧
    (lowvolt_step s c f).amount_fade_start = s.amount_fade_start ∧
    (lowvolt_step s c f).amount_flash = s.amount_flash :=
  ⟨rfl, rfl, rfl, rfl, rfl, rfl, rfl⟩

theorem throttle_step_amount_fields (s : SysState) (t : Nat) :
    (throttle_step s t).amount_current = s.amount_current ∧
    (throttle_step s t).amount_off = s.amount_off ∧
    (throttle_step s t).amount_end = s.amount_end ∧
    (throttle_step s t).amount_begin = s.amount_begin ∧
    (throttle_step s t).amount_fade_duration = s.amount_fade_duration ∧
    (throttle_step s t).amount_fade_start = s.amount_fade_start ∧
    (throttle_step s t).amount_flash = s.amount_flash := by
  unfold throttle_step
  split_ifs <;> simp_all

/-- Counterexample to C1 as stated.  First conjunct: with the filtered
temperature exactly at the `OVERTEMP_SHUTDOWN` threshold (the claim's
"at or above"), the supervisor does not shut down — a brightness of 100
survives the tick, because the code tests the strict `>`.  Remaining
conjuncts: even strictly above the threshold, the tick ends with
`amount_off = false` (the claim's `forced_off == true` is wrong:
`set_amount(0)` *clears* the flag; the hard-off is achieved by writing
the driver pins low directly). -/
theorem power_shutdown_claim_false :
    (power_tick { power_init with amount_current := 100 }
        OVERTEMP_SHUTDOWN 3300 3300).amount_current = 100 ∧
    (power_tick { power_init with amount_current := 100, amount_off := true }
        (OVERTEMP_SHUTDOWN + 1) 3300 3300).amount_current = 0 ∧
    (power_tick { power_init with amount_current := 100, amount_off := true }
        (OVERTEMP_SHUTDOWN + 1) 3300 3300).amount_off = false := by
  decide

/-- C1 (amended): for every state (hence every active mode) and every
tick in which the filtered temperature is *strictly above* the
`OVERTEMP_SHUTDOWN` threshold, the power supervisor forces brightness
to zero via `set_amount(0)`: at the end of the supervisor step
`amount_current = 0` and `amount_off = false` (not `true` — the hard
cutoff drives the actuator lines low directly), and the fade-controller
step that follows in the same tick keeps `amount_current = 0` and emits
zero drive on both channels. -/
theorem power_shutdown_forces_zero (s : SysState) (temp vccC vccF now : Nat)
    (h : OVERTEMP_SHUTDOWN < temp) :
    (power_tick s temp vccC vccF).amount_current = 0 ∧
    (power_tick s temp vccC vccF).amount_off = false ∧
    (fade_control_tick (power_tick s temp vccC vccF) now).amount_current = 0 ∧
    fade_control_output (fade_control_tick (power_tick s temp vccC vccF) now)
      = (0, 0) := by
  have hshut : shutdown_step s temp = set_amount s 0 := by
    unfold shutdown_step
    rw [if_pos h]
  set s0 := set_amount s 0 with hs0
  have h0c : s0.amount_current = 0 := rfl
  have h0o : s0.amount_off = false := rfl
  have h0e : s0.amount_end = 0 := rfl
  have h0d : s0.amount_fade_duration = 0 := rfl
  have hlv := lowvolt_step_amount_fields s0 vccC vccF
  have hth := throttle_step_amount_fields (lowvolt_step s0 vccC vccF) temp
  have hpt : power_tick s temp vccC vccF
      = throttle_step (lowvolt_step s0 vccC vccF) temp := by
    unfold power_tick
    rw [hshut]
  have hc : (power_tick s temp vccC vccF).amount_current = 0 := by
    rw [hpt]; rw [hth.1, hlv.1, h0c]
  have ho : (power_tick s temp vccC vccF).amount_off = false := by
    rw [hpt]; rw [hth.2.1, hlv.2.1, h0o]
  have he : (power_tick s temp vccC vccF).amount_end = 0 := by
    rw [hpt]; rw [hth.2.2.1, hlv.2.2.1, h0e]
  have hd : (power_tick s temp vccC vccF).amount_fade_duration = 0 := by
    rw [hpt]; rw [hth.2.2.2.2.1, hlv.2.2.2.2.1, h0d]
  have hfade :
      (fade_control_tick (power_tick s temp vccC vccF) now).amount_current
        = 0 := by
    unfold fade_control_tick
    simp [hd, he, fade_compute, fade_clamp]
  have hfoff :
      (fade_control_tick (power_tick s temp vccC vccF) now).amount_off
        = false := ho
  refine ⟨hc, ho, hfade, ?_⟩
  unfold fade_control_output
  rw [hfoff, hfade]
  simp [set_brightness]

/-- Witness for C1 (amended) one degree above the shutdown threshold. -/
theorem power_shutdown_forces_zero_witness :
    (power_tick { power_init with amount_current := 100 }
        1151 3300 3300).amount_current = 0 ∧
    (power_tick { power_init with amount_current := 100 }
        1151 3300 3300).amount_off = false ∧
    (fade_control_tick (power_tick { power_init with amount_current := 100 }
        1151 3300 3300) 200).amount_current = 0 ∧
    fade_control_output (fade_control_tick
        (power_tick { power_init with amount_current := 100 } 1151 3300 3300)
        200) = (0, 0) :=
  power_shutdown_forces_zero { power_init with amount_current := 100 }
    1151 3300 3300 200 (by decide)

/-! ## Claim C2 -/

theorem nat_mul_div_le_self (x t d : Nat) (hd : 0 < d) (ht : t ≤ d) :
    x * t / d ≤ x := by
  have h1 : x * t / d ≤ x * d / d :=
    Nat.div_le_div_right (Nat.mul_le_mul_left x ht)
  have h2 : x * d / d = x := Nat.mul_div_cancel x hd
  omega

/-- On in-range brightness values the interpolated value (computed in C
`long` arithmetic and narrowed to `unsigned short`) is exactly the
truncating-division formula, and it stays within `[0, BRT_MAX_LUMEN]`. -/
theorem fade_interp_spec (b e t d : Nat) (hb : b ≤ BRT_MAX_LUMEN)
    (he : e ≤ BRT_MAX_LUMEN) (htd : t < d) :
    fade_interp b e t d
      = (Int.tdiv (((e : Int) - (b : Int)) * (t : Int)) (d : Int)
          + (b : Int)).toNat ∧
    (Int.tdiv (((e : Int) - (b : Int)) * (t : Int)) (d : Int)
          + (b : Int)).toNat ≤ BRT_MAX_LUMEN := by
  have hd0 : 0 < d := by omega
  have hmax : BRT_MAX_LUMEN = 1020 := by norm_num [BRT_MAX_LUMEN, BRT_MED_LUMEN]
  rw [hmax] at hb he ⊢
  rcases Nat.le_total b e with hbe | heb
  · -- fading up: the quotient is ((e-b)*t)/d as a Nat
    have hcast : ((e : Int) - (b : Int)) * (t : Int) = (((e - b) * t : Nat) : Int) := by
      push_cast [Nat.cast_sub hbe]
      ring
    have hq : Int.tdiv (((e : Int) - (b : Int)) * (t : Int)) (d : Int)
        = (((e - b) * t / d : Nat) : Int) := by
      rw [hcast, ← Int.ofNat_tdiv]
    have hqle : (e - b) * t / d ≤ e - b :=
      nat_mul_div_le_self (e - b) t d hd0 htd.le
    have hv : (Int.tdiv (((e : Int) - (b : Int)) * (t : Int)) (d : Int)
        + (b : Int)) = (((e - b) * t / d + b : Nat) : Int) := by
      rw [hq]; push_cast; ring
    constructor
    · unfold fade_interp
      rw [hv, Int.emod_eq_of_lt (Int.natCast_nonneg _)
        (by exact_mod_cast (by omega : (e - b) * t / d + b < 65536))]
    · rw [hv]
      simp only [Int.toNat_natCast]
      omega
  · -- fading down: the quotient is -(((b-e)*t)/d)
    have hcast : ((e : Int) - (b : Int)) * (t : Int) = -((((b - e) * t : Nat) : Int)) := by
      push_cast [Nat.cast_sub heb]
      ring
    have hq : Int.tdiv (((e : Int) - (b : Int)) * (t : Int)) (d : Int)
        = -((((b - e) * t / d : Nat) : Int)) := by
      rw [hcast, Int.neg_tdiv, ← Int.ofNat_tdiv]
    have hqle : (b - e) * t / d ≤ b - e :=
      nat_mul_div_le_self (b - e) t d hd0 htd.le
    have hv : (Int.tdiv (((e : Int) - (b : Int)) * (t : Int)) (d : Int)
        + (b : Int)) = (((b - ((b - e) * t / d) : Nat) : Int)) := by
      rw [hq]
      have hqb : (b - e) * t / d ≤ b := by omega
      push_cast [Nat.cast_sub hqb]
      ring
    constructor
    · unfold fade_interp
      have hble : b - (b - e) * t / d < 65536 :=
        lt_of_le_of_lt (le_trans (Nat.sub_le b _) hb) (by norm_num)
      rw [hv, Int.emod_eq_of_lt (Int.natCast_nonneg _) (by exact_mod_cast hble)]
    · rw [hv]
      simp only [Int.toNat_natCast]
      exact le_trans (Nat.sub_le b _) hb

/-- Counterexample to C2 as stated: `fade_to(1020, 0)` with the thermal
ceiling at 10 — on the very next tick (elapsed ≥ d) the tick ends with
`amount_current = 10`, not the requested 1020: the fade result is
clamped to the ceiling, so "current == amount exactly" fails. -/
theorem fade_claim_false :
    (fade_control_tick
        (fade_to_amount { power_init with overtemp_max := 10 } 1020 0 0)
        5).amount_current = 10 ∧ (10 : Nat) ≠ 1020 := by
  decide

/-- C2 (amended): for every amount ≤ `BRT_MAX_LUMEN` and every duration
`d`, after `fade_to_amount(amount, d)` at time `t0`, a fade-controller
tick at time `now` sets `amount_current` to
`begin + (end - begin) * elapsed / d` (C integer arithmetic, truncating
division) while `elapsed < d`, and to `amount` exactly once
`elapsed ≥ d` (including `d = 0`) — in both cases then clamped to the
thermal ceiling `overtemp_max`, so the claimed exact value is attained
whenever it does not exceed the ceiling. -/
theorem fade_reaches_target (s : SysState) (amount d t0 now : Nat)
    (hcur : s.amount_current ≤ BRT_MAX_LUMEN) (hamt : amount ≤ BRT_MAX_LUMEN)
    (hd : d < 65536) :
    (d ≤ now - t0 →
      (fade_control_tick (fade_to_amount s amount d t0) now).amount_current
        = min amount s.overtemp_max) ∧
    (now - t0 < d →
      (fade_control_tick (fade_to_amount s amount d t0) now).amount_current
        = min ((Int.tdiv (((amount : Int) - (s.amount_current : Int))
            * ((now - t0 : Nat) : Int)) (d : Int)
            + (s.amount_current : Int)).toNat) s.overtemp_max) := by
  have hred : (fade_control_tick (fade_to_amount s amount d t0) now).amount_current
      = fade_clamp
          (fade_compute s.amount_current (amount % 65536) (now - t0) (d % 65536))
          s.overtemp_max := rfl
  have hmax : BRT_MAX_LUMEN = 1020 := by norm_num [BRT_MAX_LUMEN, BRT_MED_LUMEN]
  have hamt' : amount % 65536 = amount :=
    Nat.mod_eq_of_lt (by omega)
  have hd' : d % 65536 = d := Nat.mod_eq_of_lt hd
  rw [hamt', hd'] at hred
  constructor
  · intro hle
    rw [hred]
    unfold fade_compute
    rw [if_pos hle]
    unfold fade_clamp
    rcases Nat.lt_or_ge s.overtemp_max amount with hcl | hcl
    · rw [if_pos hcl, Nat.min_eq_right hcl.le]
    · rw [if_neg (Nat.not_lt.mpr hcl), Nat.min_eq_left hcl]
  · intro hlt
    rw [hred]
    unfold fade_compute
    rw [if_neg (Nat.not_le.mpr hlt)]
    obtain ⟨hval, _⟩ :=
      fade_interp_spec s.amount_current amount (now - t0) d hcur hamt hlt
    rw [hval]
    unfold fade_clamp
    rcases Nat.lt_or_ge s.overtemp_max
        ((Int.tdiv (((amount : Int) - (s.amount_current : Int))
          * ((now - t0 : Nat) : Int)) (d : Int)
          + (s.amount_current : Int)).toNat) with hcl | hcl
    · rw [if_pos hcl, Nat.min_eq_right hcl.le]
    · rw [if_neg (Nat.not_lt.mpr hcl), Nat.min_eq_left hcl]

/-- Witness for C2 (amended): fading from 0 toward 100 over 10 ms,
observed mid-fade at 3 ms (interpolated value 30) and after 12 ms
(target reached), with the ceiling at its maximum. -/
theorem fade_reaches_target_witness :
    (fade_control_tick (fade_to_amount power_init 100 10 0) 3).amount_current
      = 30 ∧
    (fade_control_tick (fade_to_amount power_init 100 10 0) 12).amount_current
      = 100 := by
  constructor
  · have h := (fade_reaches_target power_init 100 10 0 3 (by decide) (by decide)
      (by decide)).2 (by decide)
    rw [h]
    decide
  · have h := (fade_reaches_target power_init 100 10 0 12 (by decide) (by decide)
      (by decide)).1 (by decide)
    rw [h]
    decide

/-! ## Power-supervisor step characterizations (for C3, C4, C5) -/

theorem OVERTEMP_SHUTDOWN_eq : OVERTEMP_SHUTDOWN = 1150 := rfl
theorem OVERTEMP_THROTTLE_eq : OVERTEMP_THROTTLE = 950 := rfl
theorem BRT_MAX_LUMEN_eq : BRT_MAX_LUMEN = 1020 := rfl
theorem BRT_MIN_LUMEN_eq : BRT_MIN_LUMEN = 4 := rfl
theorem VOLTAGE_LOW_eq : VOLTAGE_LOW = 3100 := rfl
theorem VOLTAGE_NOMINAL_eq : VOLTAGE_NOMINAL = 3330 := rfl

theorem shutdown_step_power_fields (s : SysState) (temp : Nat) :
    (shutdown_step s temp).overtemp_max = s.overtemp_max ∧
    (shutdown_step s temp).low_power_condition = s.low_power_condition ∧
    (shutdown_step s temp).anti_flicker = s.anti_flicker := by
  unfold shutdown_step set_amount
  split <;> exact ⟨rfl, rfl, rfl⟩

theorem lowvolt_step_fields (s : SysState) (c f : Nat) :
    (lowvolt_step s c f).overtemp_max
      = (lowvolt_core s.overtemp_max s.low_power_condition s.anti_flicker
          s.amount_current c f).1 ∧
    (lowvolt_step s c f).low_power_condition
      = (lowvolt_core s.overtemp_max s.low_power_condition s.anti_flicker
          s.amount_current c f).2.1 ∧
    (lowvolt_step s c f).anti_flicker
      = (lowvolt_core s.overtemp_max s.low_power_condition s.anti_flicker
          s.amount_current c f).2.2 :=
  ⟨rfl, rfl, rfl⟩

/-- When the latch is clear and the instantaneous voltage is not low, the
low-voltage section reduces to the plain recovery/cooldown of lines
502-509. -/
theorem lowvolt_core_else (ceiling : Nat) (low : Bool) (anti amount c f : Nat)
    (hlow : low = false) (hvc : VOLTAGE_LOW ≤ c) :
    lowvolt_core ceiling low anti amount c f
      = ((cooldown_recover ceiling anti true).1, low,
         (cooldown_recover ceiling anti true).2) := by
  unfold lowvolt_core
  rw [if_neg]
  simp [hlow]
  omega

/-- When the latch is already set, the low-voltage section applies the
halving branch and then the guarded recovery/cooldown of lines 496-501. -/
theorem lowvolt_core_latched (ceiling : Nat) (low : Bool) (anti amount c f : Nat)
    (hlow : low = true) :
    lowvolt_core ceiling low anti amount c f
      = ((cooldown_recover (lowvolt_halve ceiling anti f).1
            (lowvolt_halve ceiling anti f).2
            (decide (VOLTAGE_NOMINAL + 50 < f))).1, true,
         (cooldown_recover (lowvolt_halve ceiling anti f).1
            (lowvolt_halve ceiling anti f).2
            (decide (VOLTAGE_NOMINAL + 50 < f))).2) := by
  unfold lowvolt_core lowvolt_snapshot
  rw [if_pos (Or.inl hlow), if_pos hlow]

/-- On the first latch (latch clear, instantaneous voltage low), the
section snapshots the ceiling to the current brightness, latches, and
applies the halving branch and the guarded recovery/cooldown. -/
theorem lowvolt_core_first_latch (ceiling : Nat) (low : Bool)
    (anti amount c f : Nat) (hlow : low = false) (hvc : c < VOLTAGE_LOW) :
    lowvolt_core ceiling low anti amount c f
      = ((cooldown_recover (lowvolt_halve amount anti f).1
            (lowvolt_halve amount anti f).2
            (decide (VOLTAGE_NOMINAL + 50 < f))).1, true,
         (cooldown_recover (lowvolt_halve amount anti f).1
            (lowvolt_halve amount anti f).2
            (decide (VOLTAGE_NOMINAL + 50 < f))).2) := by
  unfold lowvolt_core lowvolt_snapshot
  rw [if_pos (Or.inr hvc), hlow, if_neg (by simp)]

theorem cooldown_recover_spec (ceiling anti : Nat) (ok : Bool)
    (hc : ceiling ≤ BRT_MAX_LUMEN) :
    ceiling ≤ (cooldown_recover ceiling anti ok).1 ∧
    (cooldown_recover ceiling anti ok).1 ≤ ceiling + 1 ∧
    (cooldown_recover ceiling anti ok).1 ≤ BRT_MAX_LUMEN ∧
    (ceiling < (cooldown_recover ceiling anti ok).1 →
      anti = 255 ∧ (cooldown_recover ceiling anti ok).1 = ceiling + 1) := by
  rw [BRT_MAX_LUMEN_eq] at hc ⊢
  unfold cooldown_recover
  rw [BRT_MAX_LUMEN_eq]
  split_ifs <;> simp <;> omega

theorem lowvolt_halve_spec (ceiling anti f : Nat) (hc : ceiling ≤ BRT_MAX_LUMEN) :
    (lowvolt_halve ceiling anti f).1 ≤ BRT_MAX_LUMEN ∧
    (((lowvolt_halve ceiling anti f).1 = ceiling ∧
        (lowvolt_halve ceiling anti f).2 = anti) ∨
      (f < VOLTAGE_LOW ∧ BRT_MIN_LUMEN < ceiling ∧
        (lowvolt_halve ceiling anti f).1 = ceiling / 2 + BRT_MIN_LUMEN ∧
        (lowvolt_halve ceiling anti f).2 = 0)) := by
  rw [BRT_MAX_LUMEN_eq] at hc ⊢
  unfold lowvolt_halve
  rw [BRT_MIN_LUMEN_eq, VOLTAGE_LOW_eq]
  split_ifs with h <;> simp <;> omega

theorem throttle_target_eq (temp : Nat) (h : temp ≤ 1204) :
    throttle_target temp = (1204 - temp) * 4 := by
  unfold throttle_target
  have h2 : (OVERTEMP_THROTTLE : Int) = 950 := by
    norm_num [OVERTEMP_THROTTLE, OVERTEMP_THROTTLE_C]
  have h1 : ((OVERTEMP_THROTTLE : Int) + 254 - (temp : Int)) * 4
      = (((1204 - temp) * 4 : Nat) : Int) := by
    rw [h2]
    push_cast [Nat.cast_sub h]
    ring
  rw [h1, Int.emod_eq_of_lt (Int.natCast_nonneg _)
    (by exact_mod_cast (by omega : (1204 - temp) * 4 < 65536))]
  exact Int.toNat_natCast _

theorem throttle_step_spec (s : SysState) (temp : Nat)
    (hT : OVERTEMP_THROTTLE < temp) :
    throttle_step s temp
      = if throttle_target temp < s.overtemp_max then
          { s with overtemp_max := s.overtemp_max - 1, anti_flicker := 0 }
        else s := by
  unfold throttle_step
  rw [if_pos hT]

/-! ## Claim C3 -/

/-- Counterexample to C3 as stated.  First conjunct: with
`temp_filtered = 951 > OVERTEMP_THROTTLE` but the ceiling (500) below
the temperature target, an expired anti-flicker cooldown lets the
recovery branch raise the ceiling to 501 — the ceiling is *not*
non-increasing while the throttle condition persists.  Second
conjunct: at `temp_filtered = 1204` (still `> OVERTEMP_THROTTLE`) the
target is 0, and from a ceiling of `BRT_MIN_LUMEN = 4` the decrement
drives the ceiling to 3 — below `BRT_MIN_LUMEN`. -/
theorem throttle_nonincreasing_claim_false :
    OVERTEMP_THROTTLE < 951 ∧
    (power_tick { power_init with overtemp_max := 500, amount_current := 500 }
        951 3300 3300).overtemp_max = 501 ∧
    OVERTEMP_THROTTLE < 1204 ∧
    (power_tick { power_init with overtemp_max := 4, anti_flicker := 0 }
        1204 3300 3300).overtemp_max = 3 ∧
    3 < BRT_MIN_LUMEN := by
  decide

/-- C3 (amended): while `temp_filtered > OVERTEMP_THROTTLE`, provided
the low-voltage branch is inactive (latch clear and instantaneous
voltage not low), each power-supervisor tick changes the ceiling by at
most 1 in either direction (so it is not non-increasing: a +1 recovery
can occur); every decrement is by exactly 1 and resets the anti-flicker
counter to 0 (the start of its cooldown); and as long as
`temp_filtered` does not exceed the `OVERTEMP_SHUTDOWN` threshold, a
ceiling at or above `BRT_MIN_LUMEN` never drops below `BRT_MIN_LUMEN`. -/
theorem throttle_ceiling_step (s : SysState) (temp vccC vccF : Nat)
    (hT : OVERTEMP_THROTTLE < temp)
    (hlow : s.low_power_condition = false) (hvc : VOLTAGE_LOW ≤ vccC)
    (hmax : s.overtemp_max ≤ BRT_MAX_LUMEN) :
    (power_tick s temp vccC vccF).overtemp_max ≤ s.overtemp_max + 1 ∧
    s.overtemp_max ≤ (power_tick s temp vccC vccF).overtemp_max + 1 ∧
    ((power_tick s temp vccC vccF).overtemp_max < s.overtemp_max →
      (power_tick s temp vccC vccF).overtemp_max = s.overtemp_max - 1 ∧
      (power_tick s temp vccC vccF).anti_flicker = 0) ∧
    (temp ≤ OVERTEMP_SHUTDOWN → BRT_MIN_LUMEN ≤ s.overtemp_max →
      BRT_MIN_LUMEN ≤ (power_tick s temp vccC vccF).overtemp_max) := by
  have hsd := shutdown_step_power_fields s temp
  have hmc : (lowvolt_step (shutdown_step s temp) vccC vccF).overtemp_max
      = (cooldown_recover s.overtemp_max s.anti_flicker true).1 := by
    rw [(lowvolt_step_fields _ _ _).1, hsd.1, hsd.2.1, hsd.2.2, hlow,
      lowvolt_core_else _ _ _ _ _ _ rfl hvc]
  have hma : (lowvolt_step (shutdown_step s temp) vccC vccF).anti_flicker
      = (cooldown_recover s.overtemp_max s.anti_flicker true).2 := by
    rw [(lowvolt_step_fields _ _ _).2.2, hsd.1, hsd.2.1, hsd.2.2, hlow,
      lowvolt_core_else _ _ _ _ _ _ rfl hvc]
  obtain ⟨hcr1, hcr2, hcr3, hcr4⟩ :=
    cooldown_recover_spec s.overtemp_max s.anti_flicker true hmax
  have hts := throttle_step_spec (lowvolt_step (shutdown_step s temp) vccC vccF)
    temp hT
  have hPdef : power_tick s temp vccC vccF
      = throttle_step (lowvolt_step (shutdown_step s temp) vccC vccF) temp := rfl
  rw [BRT_MAX_LUMEN_eq] at hmax hcr3
  rw [OVERTEMP_THROTTLE_eq] at hT
  rw [BRT_MIN_LUMEN_eq, OVERTEMP_SHUTDOWN_eq]
  by_cases htg : throttle_target temp
      < (lowvolt_step (shutdown_step s temp) vccC vccF).overtemp_max
  · have hPo : (power_tick s temp vccC vccF).overtemp_max
        = (cooldown_recover s.overtemp_max s.anti_flicker true).1 - 1 := by
      rw [hPdef, hts, if_pos htg, hmc]
    have hPa : (power_tick s temp vccC vccF).anti_flicker = 0 := by
      rw [hPdef, hts, if_pos htg]
    rw [hmc] at htg
    refine ⟨by omega, by omega, fun _ => ⟨by omega, hPa⟩, fun hst hmin => ?_⟩
    have htv : throttle_target temp = (1204 - temp) * 4 :=
      throttle_target_eq temp (by omega)
    rw [htv] at htg
    omega
  · have hPo : (power_tick s temp vccC vccF).overtemp_max
        = (cooldown_recover s.overtemp_max s.anti_flicker true).1 := by
      rw [hPdef, hts, if_neg htg, hmc]
    refine ⟨by omega, by omega, fun hdec => absurd hdec (by omega),
      fun hst hmin => by omega⟩

/-- Witness for C3 (amended): a throttling tick at `temp_filtered = 951`
from a full ceiling with the cooldown mid-count. -/
theorem throttle_ceiling_step_witness :
    (power_tick { power_init with amount_current := 300, anti_flicker := 10 }
        951 3300 3300).overtemp_max ≤ 1021 ∧
    1020 ≤ (power_tick { power_init with amount_current := 300, anti_flicker := 10 }
        951 3300 3300).overtemp_max + 1 ∧
    ((power_tick { power_init with amount_current := 300, anti_flicker := 10 }
        951 3300 3300).overtemp_max < 1020 →
      (power_tick { power_init with amount_current := 300, anti_flicker := 10 }
          951 3300 3300).overtemp_max = 1019 ∧
      (power_tick { power_init with amount_current := 300, anti_flicker := 10 }
          951 3300 3300).anti_flicker = 0) ∧
    (951 ≤ OVERTEMP_SHUTDOWN → BRT_MIN_LUMEN ≤ 1020 →
      BRT_MIN_LUMEN ≤
        (power_tick { power_init with amount_current := 300, anti_flicker := 10 }
          951 3300 3300).overtemp_max) :=
  throttle_ceiling_step
    { power_init with amount_current := 300, anti_flicker := 10 }
    951 3300 3300 (by decide) (by decide) (by decide) (by decide)

/-! ## Claim C4 -/

theorem power_tick_ceiling_le (s : SysState) (temp vccC vccF : Nat)
    (hc : s.overtemp_max ≤ BRT_MAX_LUMEN)
    (ha : s.amount_current ≤ BRT_MAX_LUMEN) :
    (power_tick s temp vccC vccF).overtemp_max ≤ BRT_MAX_LUMEN := by
  have hsd := shutdown_step_power_fields s temp
  have hsda : (shutdown_step s temp).amount_current ≤ BRT_MAX_LUMEN := by
    unfold shutdown_step set_amount
    split
    · simp
    · exact ha
  have hm : (lowvolt_step (shutdown_step s temp) vccC vccF).overtemp_max
      ≤ BRT_MAX_LUMEN := by
    rw [(lowvolt_step_fields _ _ _).1, hsd.1, hsd.2.1, hsd.2.2]
    by_cases hlp : s.low_power_condition = true
    · rw [lowvolt_core_latched _ _ _ _ _ _ hlp]
      exact (cooldown_recover_spec _ _ _
        (lowvolt_halve_spec s.overtemp_max s.anti_flicker vccF hc).1).2.2.1
    · have hlp' : s.low_power_condition = false := by
        revert hlp; cases s.low_power_condition <;> simp
      by_cases hvc : vccC < VOLTAGE_LOW
      · rw [lowvolt_core_first_latch _ _ _ _ _ _ hlp' hvc]
        exact (cooldown_recover_spec _ _ _
          (lowvolt_halve_spec _ s.anti_flicker vccF hsda).1).2.2.1
      · rw [lowvolt_core_else _ _ _ _ _ _ hlp' (by omega)]
        exact (cooldown_recover_spec _ _ _ hc).2.2.1
  have hthr : (power_tick s temp vccC vccF).overtemp_max
        = (lowvolt_step (shutdown_step s temp) vccC vccF).overtemp_max ∨
      (power_tick s temp vccC vccF).overtemp_max
        = (lowvolt_step (shutdown_step s temp) vccC vccF).overtemp_max - 1 := by
    show (throttle_step _ temp).overtemp_max = _ ∨
      (throttle_step _ temp).overtemp_max = _
    unfold throttle_step
    split_ifs <;> simp
  omega

/-- Counterexample to C4 as stated.  First part: at
`temp_filtered = 951 > OVERTEMP_THROTTLE` (thermal-throttle condition
active) the ceiling still increases from 500 to 501 once the cooldown
has expired — increases are not restricted to ticks with no throttle
condition.  Second part: with the low-voltage latch set, the
anti-flicker counter active (`0 < 255`), and a tiny ceiling of 5, the
halving branch `overtemp_max/2 + BRT_MIN_LUMEN` *raises* the ceiling
to 6 — an increase while the cooldown counter is active and a
low-voltage condition is in force. -/
theorem ceiling_recovery_claim_false :
    OVERTEMP_THROTTLE < 951 ∧
    (power_tick { power_init with overtemp_max := 500, amount_current := 500 }
        951 3300 3300).overtemp_max = 501 ∧
    (0 : Nat) < 255 ∧
    (power_tick
        { power_init with overtemp_max := 5, low_power_condition := true, anti_flicker := 0 }
        900 3300 3000).overtemp_max = 6 := by
  decide

/-- C4 (amended): along every trace of power-supervisor ticks from the
initial state whose observed brightness stays ≤ `BRT_MAX_LUMEN`, the
ceiling never exceeds `BRT_MAX_LUMEN`; and in any single tick in which
neither the first-latch snapshot nor the low-voltage halving branch
fires, the ceiling increases by at most 1, and it increases only when
the anti-flicker cooldown has expired (`anti_flicker = 255`) — but such
increases are *not* conditioned on the thermal-throttle or latched
low-voltage conditions being inactive. -/
theorem ceiling_bounded_and_recovery :
    (∀ l : List PowerInput, (∀ i ∈ l, i.amount ≤ BRT_MAX_LUMEN) →
      (power_iter l).overtemp_max ≤ BRT_MAX_LUMEN) ∧
    (∀ (s : SysState) (temp vccC vccF : Nat),
      s.overtemp_max ≤ BRT_MAX_LUMEN →
      (s.low_power_condition = true ∨ VOLTAGE_LOW ≤ vccC) →
      ¬(vccF < VOLTAGE_LOW ∧ BRT_MIN_LUMEN < s.overtemp_max) →
      (power_tick s temp vccC vccF).overtemp_max ≤ s.overtemp_max + 1 ∧
      (s.overtemp_max < (power_tick s temp vccC vccF).overtemp_max →
        s.anti_flicker = 255 ∧
        (power_tick s temp vccC vccF).overtemp_max = s.overtemp_max + 1)) := by
  constructor
  · have hgen : ∀ (l : List PowerInput) (s : SysState),
        s.overtemp_max ≤ BRT_MAX_LUMEN →
        (∀ i ∈ l, i.amount ≤ BRT_MAX_LUMEN) →
        (l.foldl power_step s).overtemp_max ≤ BRT_MAX_LUMEN := by
      intro l
      induction l with
      | nil => intro s hs _; simpa using hs
      | cons i t ih =>
        intro s hs hl
        simp only [List.foldl_cons]
        apply ih
        · exact power_tick_ceiling_le _ _ _ _ hs
            (hl i (List.mem_cons_self i t))
        · intro j hj
          exact hl j (List.mem_cons_of_mem _ hj)
    intro l hl
    exact hgen l power_init (le_refl _) hl
  · intro s temp vccC vccF hmax hns hnh
    have hsd := shutdown_step_power_fields s temp
    have hkey : ∃ ok : Bool,
        (lowvolt_step (shutdown_step s temp) vccC vccF).overtemp_max
          = (cooldown_recover s.overtemp_max s.anti_flicker ok).1 := by
      by_cases hlp : s.low_power_condition = true
      · refine ⟨decide (VOLTAGE_NOMINAL + 50 < vccF), ?_⟩
        rw [(lowvolt_step_fields _ _ _).1, hsd.1, hsd.2.1, hsd.2.2,
          lowvolt_core_latched _ _ _ _ _ _ hlp]
        have hhid : lowvolt_halve s.overtemp_max s.anti_flicker vccF
            = (s.overtemp_max, s.anti_flicker) := by
          unfold lowvolt_halve
          rw [if_neg hnh]
        rw [hhid]
      · have hlp' : s.low_power_condition = false := by
          revert hlp; cases s.low_power_condition <;> simp
        have hvc : VOLTAGE_LOW ≤ vccC := by
          rcases hns with h | h
          · rw [hlp'] at h; exact absurd h (by simp)
          · exact h
        refine ⟨true, ?_⟩
        rw [(lowvolt_step_fields _ _ _).1, hsd.1, hsd.2.1, hsd.2.2,
          lowvolt_core_else _ _ _ _ _ _ hlp' hvc]
    obtain ⟨ok, hmc⟩ := hkey
    obtain ⟨hcr1, hcr2, hcr3, hcr4⟩ :=
      cooldown_recover_spec s.overtemp_max s.anti_flicker ok hmax
    have hthr : (power_tick s temp vccC vccF).overtemp_max
          = (lowvolt_step (shutdown_step s temp) vccC vccF).overtemp_max ∨
        (power_tick s temp vccC vccF).overtemp_max
          = (lowvolt_step (shutdown_step s temp) vccC vccF).overtemp_max - 1 := by
      show (throttle_step _ temp).overtemp_max = _ ∨
        (throttle_step _ temp).overtemp_max = _
      unfold throttle_step
      split_ifs <;> simp
    constructor
    · omega
    · intro hinc
      have h4 := hcr4 (by omega)
      omega

/-- Witness for C4 (amended): a one-tick trace with in-range brightness,
and a latched tick with healthy filtered voltage in which the only
possible ceiling change is the +1 recovery. -/
theorem ceiling_bounded_and_recovery_witness :
    (power_iter [⟨900, 3300, 3300, 100⟩]).overtemp_max ≤ BRT_MAX_LUMEN ∧
    (power_tick { power_init with low_power_condition := true }
        900 3000 3200).overtemp_max ≤ 1021 ∧
    (1020 < (power_tick { power_init with low_power_condition := true }
        900 3000 3200).overtemp_max →
      ({ power_init with low_power_condition := true } : SysState).anti_flicker
          = 255 ∧
      (power_tick { power_init with low_power_condition := true }
          900 3000 3200).overtemp_max = 1021) := by
  refine ⟨ceiling_bounded_and_recovery.1 [⟨900, 3300, 3300, 100⟩] ?_, ?_⟩
  · intro i hi
    simp only [List.mem_singleton] at hi
    rw [hi]
    decide
  · have h := ceiling_bounded_and_recovery.2
      { power_init with low_power_condition := true } 900 3000 3200
      (by decide) (Or.inl rfl) (by decide)
    exact h

/-! ## Claim C5 -/

/-- Counterexample to C5 as stated.  First part: with
`vcc_filtered = 3000 < VOLTAGE_LOW` but `vcc_current = 3100` not below
the threshold, nothing is latched and the ceiling is untouched — the
latch trigger is the *instantaneous* `vcc_current`, not
`voltage_filtered` as claimed.  Second part: on a latched tick the
ceiling becomes `1000/2 + BRT_MIN_LUMEN = 504`, not a "halved, clamped
to ≥ MIN_LUMEN" value (which would be 500). -/
theorem low_voltage_claim_false :
    (3000 : Nat) < VOLTAGE_LOW ∧ ¬ (3100 : Nat) < VOLTAGE_LOW ∧
    (power_tick
        { power_init with overtemp_max := 1000, amount_current := 500, anti_flicker := 0 }
        900 3100 3000).low_power_condition = false ∧
    (power_tick
        { power_init with overtemp_max := 1000, amount_current := 500, anti_flicker := 0 }
        900 3100 3000).overtemp_max = 1000 ∧
    (power_tick
        { power_init with overtemp_max := 1000, low_power_condition := true, anti_flicker := 0 }
        900 3300 3000).overtemp_max = 504 ∧
    (504 : Nat) ≠ max (1000 / 2) BRT_MIN_LUMEN := by
  decide

/-- C5 (amended): on ticks with no thermal throttle
(`temp ≤ OVERTEMP_THROTTLE`): (i) the latch, once set, is permanent;
(ii) when the latch is clear, the latch trigger is the *instantaneous*
reading `vcc_current < VOLTAGE_LOW`; on that first latch the ceiling is
snapshotted to the current brightness, and if additionally
`vcc_filtered < VOLTAGE_LOW` and the snapshot exceeds `BRT_MIN_LUMEN`,
the ceiling immediately becomes `snapshot/2 + BRT_MIN_LUMEN` with the
anti-flicker counter restarted (reset to 0, then ticked to 1 in the
same pass); (iii) on every later tick while latched, whenever
`vcc_filtered < VOLTAGE_LOW` and the ceiling exceeds `BRT_MIN_LUMEN`,
the ceiling becomes `ceiling/2 + BRT_MIN_LUMEN` — hence stays
≥ `BRT_MIN_LUMEN` — and the anti-flicker counter is restarted
likewise. -/
theorem low_voltage_latch_step (s : SysState) (temp vccC vccF : Nat)
    (hT : temp ≤ OVERTEMP_THROTTLE) :
    (s.low_power_condition = true →
      (power_tick s temp vccC vccF).low_power_condition = true) ∧
    (s.low_power_condition = false → vccC < VOLTAGE_LOW →
      (power_tick s temp vccC vccF).low_power_condition = true ∧
      (vccF < VOLTAGE_LOW → BRT_MIN_LUMEN < s.amount_current →
        (power_tick s temp vccC vccF).overtemp_max
          = s.amount_current / 2 + BRT_MIN_LUMEN ∧
        (power_tick s temp vccC vccF).anti_flicker = 1)) ∧
    (s.low_power_condition = true → vccF < VOLTAGE_LOW →
      BRT_MIN_LUMEN < s.overtemp_max →
      (power_tick s temp vccC vccF).overtemp_max
        = s.overtemp_max / 2 + BRT_MIN_LUMEN ∧
      (power_tick s temp vccC vccF).anti_flicker = 1 ∧
      BRT_MIN_LUMEN ≤ (power_tick s temp vccC vccF).overtemp_max) := by
  have hsid : shutdown_step s temp = s := by
    unfold shutdown_step
    rw [if_neg (by rw [OVERTEMP_SHUTDOWN_eq]; rw [OVERTEMP_THROTTLE_eq] at hT; omega)]
  have hpt : power_tick s temp vccC vccF = lowvolt_step s vccC vccF := by
    unfold power_tick
    rw [hsid]
    unfold throttle_step
    rw [if_neg (Nat.not_lt.mpr hT)]
  have hcool0 : ∀ c (ok : Bool), cooldown_recover c 0 ok = (c, 1) := by
    intro c ok
    unfold cooldown_recover
    rw [if_neg (by norm_num)]
  refine ⟨fun hlp => ?_, fun hlp hvc => ?_, fun hlp hvf hmin => ?_⟩
  · rw [hpt, (lowvolt_step_fields _ _ _).2.1, lowvolt_core_latched _ _ _ _ _ _ hlp]
  · constructor
    · rw [hpt, (lowvolt_step_fields _ _ _).2.1,
        lowvolt_core_first_latch _ _ _ _ _ _ hlp hvc]
    · intro hvf hamt
      have hhv : lowvolt_halve s.amount_current s.anti_flicker vccF
          = (s.amount_current / 2 + BRT_MIN_LUMEN, 0) := by
        unfold lowvolt_halve
        rw [if_pos ⟨hvf, hamt⟩]
      constructor
      · rw [hpt, (lowvolt_step_fields _ _ _).1,
          lowvolt_core_first_latch _ _ _ _ _ _ hlp hvc, hhv, hcool0]
      · rw [hpt, (lowvolt_step_fields _ _ _).2.2,
          lowvolt_core_first_latch _ _ _ _ _ _ hlp hvc, hhv, hcool0]
  · have hhv : lowvolt_halve s.overtemp_max s.anti_flicker vccF
        = (s.overtemp_max / 2 + BRT_MIN_LUMEN, 0) := by
      unfold lowvolt_halve
      rw [if_pos ⟨hvf, hmin⟩]
    have h1 : (power_tick s temp vccC vccF).overtemp_max
        = s.overtemp_max / 2 + BRT_MIN_LUMEN := by
      rw [hpt, (lowvolt_step_fields _ _ _).1,
        lowvolt_core_latched _ _ _ _ _ _ hlp, hhv, hcool0]
    refine ⟨h1, ?_, ?_⟩
    · rw [hpt, (lowvolt_step_fields _ _ _).2.2,
        lowvolt_core_latched _ _ _ _ _ _ hlp, hhv, hcool0]
    · rw [h1, BRT_MIN_LUMEN_eq]
      omega

/-- Witness for C5 (amended): a first-latch tick (instantaneous voltage
3000 < 3100, brightness 600) and a latched halving tick (ceiling 1000). -/
theorem low_voltage_latch_step_witness :
    (power_tick { power_init with amount_current := 600 }
        900 3000 3000).low_power_condition = true ∧
    (power_tick { power_init with amount_current := 600 }
        900 3000 3000).overtemp_max = 600 / 2 + BRT_MIN_LUMEN ∧
    (power_tick { power_init with amount_current := 600 }
        900 3000 3000).anti_flicker = 1 ∧
    (power_tick
        { power_init with overtemp_max := 1000, low_power_condition := true }
        900 3300 3000).overtemp_max = 1000 / 2 + BRT_MIN_LUMEN ∧
    (power_tick
        { power_init with overtemp_max := 1000, low_power_condition := true }
        900 3300 3000).anti_flicker = 1 := by
  have h1 := (low_voltage_latch_step { power_init with amount_current := 600 }
    900 3000 3000 (by decide)).2.1 rfl (by decide)
  have h2 := (low_voltage_latch_step
    { power_init with overtemp_max := 1000, low_power_condition := true }
    900 3300 3000 (by decide)).2.2 rfl (by decide) (by decide)
  exact ⟨h1.1, (h1.2 (by decide) (by decide)).1, (h1.2 (by decide) (by decide)).2,
    h2.1, h2.2.1⟩

/-! ## Claim C8 -/

/-- Counterexample to C8 as stated: with the pitch level (valid
deadzone), a tilt step that strictly *increases* the roll angle from 0
to 1/2 (a delta within `(0, π]`, so no wrap fires) *decreases* the knob
from 1/2 to 3/7 — the integration gain is negative
(`knob += change / -7.0f`), so increasing roll gives a non-increasing,
not non-decreasing, knob. -/
theorem knob_nondecreasing_claim_false :
    (0 : ℚ) < 1 / 2 - 0 ∧ ((1 : ℚ) / 2 - 0) ≤ piQ ∧
    |(0 : ℚ)| < DEG_TO_RAD 60 ∧
    (knob_step (1 / 2) 0 (1 / 2) 0).1 = 3 / 7 ∧ (3 / 7 : ℚ) < 1 / 2 := by
  refine ⟨by norm_num, by norm_num [piQ], by norm_num [DEG_TO_RAD, piQ], ?_,
    by norm_num⟩
  norm_num [knob_step, DEG_TO_RAD, piQ]

/-- C8 (amended): in Knob mode, for every tilt step whose roll delta is
strictly positive and at most π (so the wrap does not fire), the knob
value is non-*increasing* (the gain `-7.0` is negative; with pitch
outside the deadzone it is unchanged); and the commanded brightness is
`⌊knob² · BRT_MAX_LUMEN⌋` floored at `BRT_MIN_LUMEN`, a monotone
function of the knob that is never below `BRT_MIN_LUMEN` (never fully
off). -/
theorem knob_monotone_amended :
    (∀ knob lastKnobAngle angle_roll angle_pitch : ℚ, 0 ≤ knob →
      0 < angle_roll - lastKnobAngle → angle_roll - lastKnobAngle ≤ piQ →
      (knob_step knob lastKnobAngle angle_roll angle_pitch).1 ≤ knob) ∧
    (∀ k k' : ℚ, 0 ≤ k → k ≤ k' → knob_bright k ≤ knob_bright k') ∧
    (∀ k : ℚ, BRT_MIN_LUMEN ≤ knob_bright k) := by
  have hpi : (0 : ℚ) < piQ := by norm_num [piQ]
  refine ⟨?_, ?_, ?_⟩
  · intro k last roll pitch hk h1 h2
    have h7 : (roll - last) / (-7 : ℚ) < 0 :=
      div_neg_of_pos_of_neg h1 (by norm_num)
    simp only [knob_step]
    split_ifs <;> dsimp only <;> first | rfl | linarith
  · intro k k' h0 hkk
    have hsq : k * k * (BRT_MAX_LUMEN : ℚ) ≤ k' * k' * (BRT_MAX_LUMEN : ℚ) := by
      have h1 : k * k ≤ k' * k' := mul_self_le_mul_self h0 hkk
      have h2 : (0 : ℚ) ≤ (BRT_MAX_LUMEN : ℚ) := by positivity
      exact mul_le_mul_of_nonneg_right h1 h2
    have hfl : ⌊k * k * (BRT_MAX_LUMEN : ℚ)⌋₊ ≤ ⌊k' * k' * (BRT_MAX_LUMEN : ℚ)⌋₊ :=
      Nat.floor_mono hsq
    unfold knob_bright
    dsimp only
    split_ifs <;> omega
  · intro k
    unfold knob_bright
    dsimp only
    split_ifs <;> omega

/-- Witness for C8 (amended): a concrete positive roll step from a knob
of 1/2, and the brightness map at 1/2 ≤ 3/4 and at 0. -/
theorem knob_monotone_amended_witness :
    (knob_step (1 / 2) 0 (1 / 4) 0).1 ≤ 1 / 2 ∧
    knob_bright (1 / 2) ≤ knob_bright (3 / 4) ∧
    BRT_MIN_LUMEN ≤ knob_bright 0 :=
  ⟨knob_monotone_amended.1 (1 / 2) 0 (1 / 4) 0 (by norm_num) (by norm_num)
      (by norm_num [piQ]),
    knob_monotone_amended.2.1 (1 / 2) (3 / 4) (by norm_num) (by norm_num),
    knob_monotone_amended.2.2 0⟩
